import Mathlib

set_option autoImplicit false

/-!
Verification of the hanzoai/bot gateway core: billing gate, billing caches,
usage reporter, OpenAI-compatible adapter fragments, origin policy, slug
sanitation, and IAM identity extraction.  Each definition is a shallow
embedding of the corresponding TypeScript function; network calls are made
explicit as `Except`-valued inputs and the wall clock as an explicit `now`
parameter.
-/

-- ---------------------------------------------------------------------------
-- Data model (src/gateway/tenant-context.ts, src/gateway/billing/*)
-- ---------------------------------------------------------------------------

/-- Modelled from the spec: the IAM client configuration record
(`GatewayIamConfig` from `src/config/config.ts`, not present under `src/`).
Only its presence or absence is observable to the claims below. -/
structure GatewayIamConfig where
  serverUrl : String
  clientId : String
  clientSecret : Option String := none
  orgName : Option String := none
  deriving DecidableEq

/-- `TenantContext` from `src/gateway/tenant-context.ts`. -/
structure TenantContext where
  orgId : String
  projectId : Option String := none
  userId : String
  userName : Option String := none
  env : Option String := none
  deriving DecidableEq

/-- `CommerceSubscription` from the commerce billing client. -/
structure CommerceSubscription where
  id : Option String := none
  planId : Option String := none
  userId : Option String := none
  status : Option String := none
  name : Option String := none
  displayName : Option String := none
  state : Option String := none
  deriving DecidableEq

/-- `CommercePlan` from the commerce billing client. -/
structure CommercePlan where
  slug : Option String := none
  name : Option String := none
  description : Option String := none
  price : Option Int := none
  currency : Option String := none
  interval : Option String := none
  deriving DecidableEq

/-- `SubscriptionStatus` from the commerce billing client. -/
structure SubscriptionStatus where
  active : Bool
  subscription : Option CommerceSubscription := none
  plan : Option CommercePlan := none
  deriving DecidableEq

-- ---------------------------------------------------------------------------
-- TTL cache (`cached` / `setCached` in the billing client)
-- ---------------------------------------------------------------------------

/-- `CacheEntry<T>` — `{ value, expiresAt }`. -/
structure CacheEntry (α : Type) where
  value : α
  expiresAt : Int
  deriving DecidableEq

/-- The JS `Map<string, CacheEntry<T>>`, modelled as an association list. -/
abbrev CacheMap (α : Type) := List (String × CacheEntry α)

/-- `CACHE_TTL_MS = 60_000` (one minute). -/
def CACHE_TTL_MS : Int := 60000

/-- `cached(map, key)`: returns the live value, deleting a stale entry on
read.  `Date.now()` is the explicit `now` argument; the function returns the
read result together with the map after the read. -/
def cached {α : Type} (map : CacheMap α) (key : String) (now : Int) :
    Option α × CacheMap α :=
  match map.lookup key with
  | none => (none, map)
  | some entry =>
    if now > entry.expiresAt then (none, map.filter (fun kv => kv.fst != key))
    else (some entry.value, map)

/-- `setCached(map, key, value)`: stores `{value, expiresAt: now + TTL}`.
The JS `Map.set` overwrite is modelled as replace-at-front. -/
def setCached {α : Type} (map : CacheMap α) (key : String) (value : α)
    (now : Int) : CacheMap α :=
  (key, ⟨value, now + CACHE_TTL_MS⟩) :: map.filter (fun kv => kv.fst != key)

-- ---------------------------------------------------------------------------
-- Billing gate (src/gateway/billing/billing-gate.ts, prepaid-balance variant)
-- ---------------------------------------------------------------------------

/-- `BillingGateResult`. -/
inductive BillingGateResult where
  | allowed
  | denied (reason : String) (status : SubscriptionStatus)
  deriving DecidableEq

/-- JS `(cents / 100).toFixed(2)` for an integral number of cents. -/
def centsToFixed2 (cents : Int) : String :=
  let sign := if cents < 0 then "-" else ""
  let m := cents.natAbs
  let frac := m % 100
  sign ++ toString (m / 100) ++ "." ++ (if frac < 10 then "0" else "") ++ toString frac

/-- `checkBillingAllowance` (prepaid-balance version).  The two commerce
calls — `getBalance` and `getSubscriptionStatus` — are abstracted as
`Except`-valued inputs; `.error` models the call throwing, so the `try`
block is the `Except` case analysis and the `catch` branch is the shared
fail-closed denial. -/
def checkBillingAllowance (iamConfig : Option GatewayIamConfig)
    (tenant : Option TenantContext)
    (balanceRes : Except Unit Int)
    (subRes : Except Unit SubscriptionStatus) : BillingGateResult :=
  match iamConfig, tenant with
  | some _, some _ =>
    match balanceRes with
    | .error _ =>
        .denied "Billing service unavailable — please try again"
          { active := false, subscription := none, plan := none }
    | .ok available =>
        if available > 0 then .allowed
        else
          match subRes with
          | .error _ =>
              .denied "Billing service unavailable — please try again"
                { active := false, subscription := none, plan := none }
          | .ok status =>
              if status.active then .allowed
              else
                .denied ("Insufficient funds — add credits to continue. Balance: $" ++
                  centsToFixed2 available) status
  | _, _ => .allowed

-- ---------------------------------------------------------------------------
-- Shared concrete fixtures (used by witness theorems)
-- ---------------------------------------------------------------------------

/-- A concrete IAM configuration used by witnesses. -/
def cfg0 : GatewayIamConfig :=
  { serverUrl := "https://iam.example", clientId := "cid" }

/-- A concrete tenant context used by witnesses. -/
def tenant0 : TenantContext :=
  { orgId := "acme", userId := "u1" }

-- ---------------------------------------------------------------------------
-- Helper lemmas
-- ---------------------------------------------------------------------------

theorem lookup_filter_ne_key {α : Type} (map : CacheMap α) (key : String) :
    (map.filter (fun kv => kv.fst != key)).lookup key = none := by
  induction map with
  | nil => rfl
  | cons kv rest ih =>
    by_cases h : kv.fst = key
    · simpa [List.filter_cons, h] using ih
    · have hk : (key == kv.fst) = false := by
        simp only [beq_eq_false_iff_ne, ne_eq]
        exact fun e => h e.symm
      simp only [List.filter_cons, bne_iff_ne, ne_eq, h, not_false_iff,
        decide_True, if_true, List.lookup, hk]
      exact ih

-- ---------------------------------------------------------------------------
-- Claim theorems
-- ---------------------------------------------------------------------------

/-- Claim C1: with both an IAM config and a tenant present, if either
commerce call that actually runs throws (the balance fetch, or the
subscription fetch reached because the balance was not positive), the
billing gate returns a denial whose reason is exactly
`Billing service unavailable — please try again`; it never returns allowed
on an exception. -/
theorem checkBillingAllowance_fail_closed
    (cfg : GatewayIamConfig) (tenant : TenantContext)
    (balanceRes : Except Unit Int) (subRes : Except Unit SubscriptionStatus)
    (h : balanceRes = .error () ∨
      ∃ b : Int, balanceRes = .ok b ∧ ¬ b > 0 ∧ subRes = .error ()) :
    checkBillingAllowance (some cfg) (some tenant) balanceRes subRes =
      .denied "Billing service unavailable — please try again"
        { active := false, subscription := none, plan := none } := by
  rcases h with h | ⟨b, hb, hb0, hs⟩
  · subst h; rfl
  · subst hb; subst hs
    simp [checkBillingAllowance, hb0]

/-- Witness for C1 at a concrete input: the balance fetch throws. -/
theorem checkBillingAllowance_fail_closed_witness :
    checkBillingAllowance (some cfg0) (some tenant0) (.error ())
        (.ok { active := true }) =
      .denied "Billing service unavailable — please try again"
        { active := false, subscription := none, plan := none } :=
  checkBillingAllowance_fail_closed cfg0 tenant0 _ _ (Or.inl rfl)

/-- Claim C2: the billing gate allows when the IAM config or the tenant is
absent; otherwise, when neither commerce call throws, it allows on a
positive balance, else allows on an active subscription, and else denies
with reason `Insufficient funds — add credits to continue. Balance: $X.YY`,
where `X.YY` is the balance in cents divided by 100 with two decimals
(`centsToFixed2`; e.g. `0` renders as `0.00`). -/
theorem checkBillingAllowance_decision
    (cfg : GatewayIamConfig) (tenant : TenantContext)
    (balanceRes : Except Unit Int) (subRes : Except Unit SubscriptionStatus)
    (b : Int) (s : SubscriptionStatus) :
    (∀ t : Option TenantContext,
        checkBillingAllowance none t balanceRes subRes = .allowed) ∧
    (∀ c : Option GatewayIamConfig,
        checkBillingAllowance c none balanceRes subRes = .allowed) ∧
    (checkBillingAllowance (some cfg) (some tenant) (.ok b) (.ok s) =
      if b > 0 then .allowed
      else if s.active then .allowed
      else
        .denied ("Insufficient funds — add credits to continue. Balance: $" ++
          centsToFixed2 b) s) ∧
    centsToFixed2 0 = "0.00" ∧ centsToFixed2 (-150) = "-1.50" := by
  refine ⟨fun t => ?_, fun c => ?_, ?_, rfl, rfl⟩
  · cases t <;> rfl
  · cases c <;> rfl
  · by_cases hb : b > 0
    · simp [checkBillingAllowance, hb]
    · by_cases hs : s.active <;> simp [checkBillingAllowance, hb, hs]

/-- Claim C7: a cache entry stored at `storeTime` (so `expiresAt =
storeTime + CACHE_TTL_MS`) is returned by `cached` only while its age is at
most 60 s; once expired it is never returned and the read itself deletes it
from the map. -/
theorem cached_ttl_sound {α : Type} (map : CacheMap α) (key : String)
    (storeTime : Int) (v : α) (now : Int)
    (hlook : map.lookup key = some ⟨v, storeTime + CACHE_TTL_MS⟩) :
    (now ≤ storeTime + CACHE_TTL_MS →
      (cached map key now).fst = some v ∧ now - storeTime ≤ 60000) ∧
    (storeTime + CACHE_TTL_MS < now →
      (cached map key now).fst = none ∧
        ((cached map key now).snd).lookup key = none) := by
  constructor
  · intro h
    have hnot : ¬ now > storeTime + CACHE_TTL_MS := not_lt.mpr h
    constructor
    · simp [cached, hlook, hnot]
    · have : CACHE_TTL_MS = 60000 := rfl
      omega
  · intro h
    constructor
    · simp [cached, hlook, h]
    · simp [cached, hlook, h, lookup_filter_ne_key]

/-- Witness for C7: a fresh read at age 50 s returns the stored value; the
age bound holds. -/
theorem cached_ttl_sound_witness :
    (cached [("k", CacheEntry.mk (7 : Nat) (0 + CACHE_TTL_MS))] "k" 50000).fst =
        some 7 ∧ (50000 : Int) - 0 ≤ 60000 :=
  (cached_ttl_sound [("k", ⟨7, 0 + CACHE_TTL_MS⟩)] "k" 0 7 50000 rfl).1
    (by norm_num [CACHE_TTL_MS])

-- ---------------------------------------------------------------------------
-- Plan lookup (getPlan in the commerce billing client)
-- ---------------------------------------------------------------------------

/-- JS `res.ok`: the response status is in the 2xx range. -/
def resOk (status : Nat) : Bool := 200 ≤ status && status ≤ 299

/-- The plan cache key `planId + ":" + (token ?? "")`. -/
def planCacheKey (planId : String) (token : Option String) : String :=
  planId ++ ":" ++ token.getD ""

/-- `getPlan`: consult the plan cache; on a miss, the fetch outcome is the
explicit `(status, body)` pair.  A 2xx response caches and returns the plan;
any other response caches a null entry and returns null.  The first
component is the returned value (`.error` would model a raised exception —
this code path never raises), the second the plan cache after the call. -/
def getPlan (cache : CacheMap (Option CommercePlan)) (planId : String)
    (token : Option String) (status : Nat) (body : CommercePlan) (now : Int) :
    Except Unit (Option CommercePlan) × CacheMap (Option CommercePlan) :=
  let key := planCacheKey planId token
  match cached cache key now with
  | (some hit, cache1) => (.ok hit, cache1)
  | (none, cache1) =>
    if resOk status then (.ok (some body), setCached cache1 key (some body) now)
    else (.ok none, setCached cache1 key none now)

/-- Counterexample for C3: on a cache miss, a 500 response does not raise —
it returns null and records a null cache entry, exactly like a 404. -/
theorem getPlan_500_no_raise :
    (getPlan [] "p" none 500 {} 0).fst = Except.ok none ∧
    (getPlan [] "p" none 500 {} 0).fst ≠ Except.error () ∧
    ((getPlan [] "p" none 500 {} 0).snd).lookup "p:" =
      some ⟨none, 60000⟩ := by
  have h1 : (getPlan [] "p" none 500 {} 0).fst = Except.ok none := rfl
  refine ⟨h1, ?_, rfl⟩
  rw [h1]
  exact fun h => Except.noConfusion h

/-- Claim C3 (amended): on a cache miss, every non-2xx response — 404
included — causes a null entry to be cached and null to be returned; no
response status makes `getPlan` raise. -/
theorem getPlan_non2xx_caches_null
    (cache : CacheMap (Option CommercePlan)) (planId : String)
    (token : Option String) (status : Nat) (body : CommercePlan) (now : Int)
    (hmiss : (cached cache (planCacheKey planId token) now).fst = none)
    (hbad : resOk status = false) :
    (getPlan cache planId token status body now).fst = Except.ok none ∧
    ((getPlan cache planId token status body now).snd).lookup
        (planCacheKey planId token) = some ⟨none, now + CACHE_TTL_MS⟩ := by
  rcases hc : cached cache (planCacheKey planId token) now with ⟨res, cache1⟩
  rw [hc] at hmiss
  simp only at hmiss
  subst hmiss
  constructor
  · simp [getPlan, hc, hbad]
  · simp [getPlan, hc, hbad, setCached, List.lookup]

/-- Witness for the amended C3 at the 404 input from the claim. -/
theorem getPlan_non2xx_caches_null_witness :
    (getPlan [] "p" none 404 {} 0).fst = Except.ok none ∧
    ((getPlan [] "p" none 404 {} 0).snd).lookup (planCacheKey "p" none) =
      some ⟨none, 0 + CACHE_TTL_MS⟩ :=
  getPlan_non2xx_caches_null [] "p" none 404 {} 0 rfl rfl

-- ---------------------------------------------------------------------------
-- Usage reporter (src/gateway/billing/usage-reporter.ts)
-- ---------------------------------------------------------------------------

/-- `UsageRecord`. -/
structure UsageRecord where
  tenant : TenantContext
  model : String
  provider : String
  inputTokens : Nat
  outputTokens : Nat
  cacheReadTokens : Option Nat := none
  cacheWriteTokens : Option Nat := none
  totalTokens : Nat
  durationMs : Option Nat := none
  timestamp : Int
  deriving DecidableEq

/-- `MAX_BATCH_SIZE = 50`. -/
def MAX_BATCH_SIZE : Nat := 50

/-- The effect of one `flushUsageQueue` call on the queue: a no-op when the
queue is empty or no IAM config has been set; otherwise `splice(0, 50)`
removes the first batch (records are posted or discarded either way). -/
def flushUsageQueueStep (currentIamConfig : Option GatewayIamConfig)
    (queue : List UsageRecord) : List UsageRecord :=
  if queue.length = 0 || currentIamConfig.isNone then queue
  else queue.drop MAX_BATCH_SIZE

/-- `shutdownUsageReporter` terminates iff repeatedly applying the flush
step empties the queue after finitely many iterations of the
`while (queue.length > 0)` loop. -/
def shutdownTerminates (currentIamConfig : Option GatewayIamConfig)
    (queue : List UsageRecord) : Prop :=
  ∃ n : Nat, (flushUsageQueueStep currentIamConfig)^[n] queue = []

/-- A concrete usage record used by counterexamples and witnesses. -/
def usageRecord0 : UsageRecord :=
  { tenant := tenant0, model := "m", provider := "anthropic",
    inputTokens := 1, outputTokens := 0, totalTokens := 1, timestamp := 0 }

/-- Counterexample for C9: with the reporter unconfigured and one queued
record, a flush leaves the queue untouched (no strict decrease), so the
shutdown drain loop never terminates. -/
theorem shutdown_unconfigured_diverges :
    flushUsageQueueStep none [usageRecord0] = [usageRecord0] ∧
    ¬ (flushUsageQueueStep none [usageRecord0]).length < [usageRecord0].length ∧
    ¬ shutdownTerminates none [usageRecord0] := by
  have hid : flushUsageQueueStep none = id := by
    funext q; simp [flushUsageQueueStep]
  refine ⟨by rw [hid]; rfl, by rw [hid]; simp, ?_⟩
  rintro ⟨n, hn⟩
  rw [hid, Function.iterate_id] at hn
  exact absurd hn (by simp)

/-- Claim C9 (amended): once the reporter is configured, every flush on a
non-empty queue strictly decreases the queue length, and the shutdown drain
loop terminates with an empty queue from every initial queue. -/
theorem shutdown_configured_drains (cfg : GatewayIamConfig)
    (q : List UsageRecord) (h : q ≠ []) :
    (flushUsageQueueStep (some cfg) q).length < q.length ∧
    shutdownTerminates (some cfg) q := by
  have step_lt : ∀ qq : List UsageRecord, qq ≠ [] →
      (flushUsageQueueStep (some cfg) qq).length < qq.length := by
    intro qq hqq
    have hlen : 0 < qq.length := List.length_pos.mpr hqq
    simp only [flushUsageQueueStep, Option.isNone_some, Bool.or_false]
    rw [if_neg (by simpa using Nat.pos_iff_ne_zero.mp hlen)]
    rw [List.length_drop]
    have : 0 < MAX_BATCH_SIZE := by decide
    omega
  refine ⟨step_lt q h, ?_⟩
  have drain : ∀ (k : Nat) (qq : List UsageRecord), qq.length ≤ k →
      ∃ n : Nat, (flushUsageQueueStep (some cfg))^[n] qq = [] := by
    intro k
    induction k with
    | zero =>
      intro qq hqq
      exact ⟨0, by simpa using List.length_eq_zero.mp (Nat.le_zero.mp hqq)⟩
    | succ k ih =>
      intro qq hqq
      by_cases hnil : qq = []
      · exact ⟨0, by simpa using hnil⟩
      · obtain ⟨n, hn⟩ := ih (flushUsageQueueStep (some cfg) qq)
          (by have := step_lt qq hnil; omega)
        exact ⟨n + 1, by rwa [Function.iterate_succ_apply]⟩
  exact drain q.length q le_rfl

/-- Witness for the amended C9 at a one-record queue. -/
theorem shutdown_configured_drains_witness :
    (flushUsageQueueStep (some cfg0) [usageRecord0]).length <
        [usageRecord0].length ∧
    shutdownTerminates (some cfg0) [usageRecord0] :=
  shutdown_configured_drains cfg0 [usageRecord0] (by simp)

-- ---------------------------------------------------------------------------
-- OpenAI-compatible adapter fragments (handleOpenAiHttpRequest)
-- ---------------------------------------------------------------------------

/-- The `usage` record found under `meta.agentMeta.usage` of a run result.
Absent fields model JS `undefined`. -/
structure AgentUsage where
  input : Option Nat := none
  output : Option Nat := none
  total : Option Nat := none
  cacheRead : Option Nat := none
  cacheWrite : Option Nat := none
  deriving DecidableEq

/-- `agentUsage?.input ?? 0`. -/
def usageInputTokens (usage : Option AgentUsage) : Nat :=
  (usage.bind AgentUsage.input).getD 0

/-- `agentUsage?.output ?? 0`. -/
def usageOutputTokens (usage : Option AgentUsage) : Nat :=
  (usage.bind AgentUsage.output).getD 0

/-- The guard of the non-streaming `reportUsage` call:
`tenant && (inputTokens > 0 || outputTokens > 0)`. -/
def nonStreamReportsUsage (tenant : Option TenantContext)
    (usage : Option AgentUsage) : Bool :=
  tenant.isSome &&
    (decide (0 < usageInputTokens usage) || decide (0 < usageOutputTokens usage))

/-- The guard of the streaming-path `reportUsage` call: the handler returns
early when `closed` is set, and otherwise requires
`tenant && sAgentUsage && ((input ?? 0) > 0 || (output ?? 0) > 0)`. -/
def streamReportsUsage (closed : Bool) (tenant : Option TenantContext)
    (usage : Option AgentUsage) : Bool :=
  !closed && tenant.isSome && usage.isSome &&
    (decide (0 < usageInputTokens usage) || decide (0 < usageOutputTokens usage))

/-- Counterexample for C4: a request admitted in personal mode (no tenant
resolved) whose run used one input token enqueues no usage record even
though `inputTokens + outputTokens ≠ 0`. -/
theorem reportsUsage_no_tenant_counterexample :
    nonStreamReportsUsage none (some { input := some 1, output := some 0 }) = false ∧
    usageInputTokens (some { input := some 1, output := some 0 }) +
      usageOutputTokens (some { input := some 1, output := some 0 }) ≠ 0 := by
  decide

/-- Claim C4 (amended): for every chat-completion request that passes the
billing gate with a tenant context resolved and completes (with the client
still connected on the streaming path), either the `reportUsage` guard
fires — enqueuing a usage record — or `inputTokens + outputTokens = 0`. -/
theorem reportsUsage_with_tenant (tenant : TenantContext)
    (usage : Option AgentUsage) :
    (nonStreamReportsUsage (some tenant) usage = true ∨
      usageInputTokens usage + usageOutputTokens usage = 0) ∧
    (streamReportsUsage false (some tenant) usage = true ∨
      usageInputTokens usage + usageOutputTokens usage = 0) := by
  cases usage with
  | none => simp [usageInputTokens, usageOutputTokens]
  | some u =>
    by_cases hin : 0 < usageInputTokens (some u)
    · constructor <;> left <;>
        simp [nonStreamReportsUsage, streamReportsUsage, hin]
    · by_cases hout : 0 < usageOutputTokens (some u)
      · constructor <;> left <;>
          simp [nonStreamReportsUsage, streamReportsUsage, hout]
      · constructor <;> right <;> omega

-- ---------------------------------------------------------------------------
-- Non-streaming content assembly (handleOpenAiHttpRequest, non-stream path)
-- ---------------------------------------------------------------------------

/-- One element of `result.payloads`; `text` is absent when the field is
missing or not a string. -/
structure RunPayload where
  text : Option String := none
  deriving DecidableEq

/-- The non-streaming content expression:
`Array.isArray(payloads) && payloads.length > 0
   ? payloads.map(p => typeof p.text === "string" ? p.text : "")
       .filter(Boolean).join("\n\n")
   : "No response from Hanzo Bot."`. -/
def assembleNonStreamContent (payloads : Option (List RunPayload)) : String :=
  match payloads with
  | some ps =>
    if ps.length > 0 then
      String.intercalate "\n\n"
        ((ps.map (fun p => p.text.getD "")).filter (fun s => s != ""))
    else "No response from Hanzo Bot."
  | none => "No response from Hanzo Bot."

/-- The single choice of the non-streaming response:
`{ index: 0, message: { role: "assistant", content }, finish_reason: "stop" }`. -/
structure ChatChoice where
  index : Nat
  role : String
  content : String
  finish_reason : String
  deriving DecidableEq

/-- Builds the one choice returned by the non-streaming path. -/
def nonStreamChoice (payloads : Option (List RunPayload)) : ChatChoice :=
  { index := 0, role := "assistant",
    content := assembleNonStreamContent payloads, finish_reason := "stop" }

/-- The claim's notion of the run's non-empty payload texts. -/
def nonEmptyPayloadTexts (ps : List RunPayload) : List String :=
  ps.filterMap (fun p =>
    match p.text with
    | some t => if t = "" then none else some t
    | none => none)

theorem map_filter_eq_nonEmptyPayloadTexts (ps : List RunPayload) :
    (ps.map (fun p => p.text.getD "")).filter (fun s => s != "") =
      nonEmptyPayloadTexts ps := by
  induction ps with
  | nil => rfl
  | cons p rest ih =>
    cases hp : p.text with
    | none =>
      simp only [List.map_cons, List.filter_cons, nonEmptyPayloadTexts,
        List.filterMap_cons, hp, Option.getD_none]
      simpa using ih
    | some t =>
      by_cases ht : t = ""
      · simp only [List.map_cons, List.filter_cons, nonEmptyPayloadTexts,
          List.filterMap_cons, hp, Option.getD_some, ht]
        simpa using ih
      · simp only [List.map_cons, List.filter_cons, nonEmptyPayloadTexts,
          List.filterMap_cons, hp, Option.getD_some, ht, bne_iff_ne, ne_eq,
          not_false_iff, decide_True, if_true, if_false]
        rw [ih]
        rfl

/-- Counterexample for C5: a run whose payloads array is non-empty but
contains only empty texts has no non-empty payload text, yet the content is
the empty string rather than the fallback string. -/
theorem assembleContent_empty_text_counterexample :
    nonEmptyPayloadTexts [{ text := some "" }] = [] ∧
    assembleNonStreamContent (some [{ text := some "" }]) = "" ∧
    assembleNonStreamContent (some [{ text := some "" }]) ≠
      "No response from Hanzo Bot." := by
  refine ⟨rfl, rfl, ?_⟩
  decide

/-- Claim C5 (amended): in the non-streaming path the content is the join of
the run's non-empty payload texts with `"\n\n"` whenever the payloads array
is present and non-empty (so the empty string when every text is empty or
missing); when the payloads array is absent or empty the content is exactly
`"No response from Hanzo Bot."`; and the single choice always carries
`finish_reason = "stop"` with role `"assistant"`. -/
theorem assembleContent_characterization (payloads : Option (List RunPayload)) :
    (assembleNonStreamContent payloads =
      match payloads with
      | some (p :: ps) =>
          String.intercalate "\n\n" (nonEmptyPayloadTexts (p :: ps))
      | _ => "No response from Hanzo Bot.") ∧
    (nonStreamChoice payloads).finish_reason = "stop" ∧
    (nonStreamChoice payloads).role = "assistant" := by
  refine ⟨?_, rfl, rfl⟩
  match payloads with
  | none => rfl
  | some [] => rfl
  | some (p :: ps) =>
    simp only [assembleNonStreamContent, List.length_cons]
    rw [if_pos (Nat.succ_pos _)]
    rw [map_filter_eq_nonEmptyPayloadTexts]

-- ---------------------------------------------------------------------------
-- Browser origin policy (checkBrowserOrigin)
-- ---------------------------------------------------------------------------

/-- Result of the origin check: `{ok: true}` or `{ok: false, reason}`. -/
inductive OriginCheckResult where
  | ok
  | denied (reason : String)
  deriving DecidableEq

/-- The `origin`, `host` and `hostname` projections of a parsed URL. -/
structure UrlParts where
  origin : String
  host : String
  hostname : String
  deriving DecidableEq

/-- Modelled from the spec: the helpers `checkBrowserOrigin` imports from
`net.js` (not present under `src/`) and the JS `URL` constructor, bundled as
an abstract environment.  `parseUrl` returns `none` when `new URL` throws;
`normalizeHostHeader`, `resolveHostName` and `isLoopbackHost` are the
loopback/host-normalization helpers (IPv4 127/8, IPv6 `::1`, `localhost`). -/
structure OriginPolicyEnv where
  parseUrl : String → Option UrlParts
  runtimeAllowedOrigins : List String
  isLoopbackHost : Option String → Bool
  normalizeHostHeader : Option String → Option String
  resolveHostName : Option String → Option String

/-- `parseOrigin`: trim, reject empty or the literal `"null"`, parse, and
lowercase the origin, host and hostname. -/
def parseOrigin (env : OriginPolicyEnv) (originRaw : Option String) :
    Option UrlParts :=
  let trimmed := (originRaw.getD "").trim
  if trimmed = "" ∨ trimmed = "null" then none
  else
    match env.parseUrl trimmed with
    | none => none
    | some u =>
        some { origin := u.origin.toLower, host := u.host.toLower,
               hostname := u.hostname.toLower }

/-- `checkBrowserOrigin`, rule for rule from the source. -/
def checkBrowserOrigin (env : OriginPolicyEnv) (requestHost : Option String)
    (origin : Option String) (allowedOrigins : Option (List String)) :
    OriginCheckResult :=
  match parseOrigin env origin with
  | none => .denied "origin missing or invalid"
  | some po =>
    let allowlist :=
      ((allowedOrigins.getD []).map (fun v => v.trim.toLower)).filter
        (fun s => s != "")
    if allowlist.contains po.origin then .ok
    else if env.runtimeAllowedOrigins.contains po.origin then .ok
    else
      let requestHost := env.normalizeHostHeader requestHost
      if (match requestHost with
          | some h => h != "" && po.host == h
          | none => false) then .ok
      else
        let requestHostname := env.resolveHostName requestHost
        if env.isLoopbackHost (some po.hostname) &&
            env.isLoopbackHost requestHostname then .ok
        else .denied "origin not allowed"

theorem if_chain_or (a b c d : Bool) (r : OriginCheckResult) :
    (if a then OriginCheckResult.ok
     else if b then OriginCheckResult.ok
     else if c then OriginCheckResult.ok
     else if d then OriginCheckResult.ok
     else r) =
      (if a || b || c || d then OriginCheckResult.ok else r) := by
  cases a <;> cases b <;> cases c <;> cases d <;> rfl

/-- The claim's allow condition, stated as one flat disjunction: configured
allow-list membership, runtime allow-set membership, authority equal to the
normalized (non-empty) request host, or loopback origin hostname together
with loopback resolved request hostname. -/
def originAllowCondition (env : OriginPolicyEnv) (requestHost : Option String)
    (allowedOrigins : Option (List String)) (po : UrlParts) : Bool :=
  (((allowedOrigins.getD []).map (fun v => v.trim.toLower)).filter
      (fun s => s != "")).contains po.origin ||
  env.runtimeAllowedOrigins.contains po.origin ||
  (match env.normalizeHostHeader requestHost with
   | some h => h != "" && po.host == h
   | none => false) ||
  (env.isLoopbackHost (some po.hostname) &&
    env.isLoopbackHost (env.resolveHostName (env.normalizeHostHeader requestHost)))

/-- Claim C6: the browser-origin check denies with reason
`origin missing or invalid` exactly when the origin is absent, empty, the
literal `null`, or unparsable; otherwise it allows precisely under the
claim's four allow rules and denies with reason `origin not allowed` in
every remaining case. -/
theorem checkBrowserOrigin_rules (env : OriginPolicyEnv)
    (requestHost : Option String) (origin : Option String)
    (allowedOrigins : Option (List String)) :
    checkBrowserOrigin env requestHost origin allowedOrigins =
      match parseOrigin env origin with
      | none => .denied "origin missing or invalid"
      | some po =>
          if originAllowCondition env requestHost allowedOrigins po then .ok
          else .denied "origin not allowed" := by
  cases hp : parseOrigin env origin with
  | none => simp [checkBrowserOrigin, hp]
  | some po =>
    simp only [checkBrowserOrigin, hp, originAllowCondition]
    exact if_chain_or _ _ _ _ _

-- ---------------------------------------------------------------------------
-- IAM identity extraction (validateIamToken) and tenant resolution
-- ---------------------------------------------------------------------------

/-- A raw claim value: a string or anything else. -/
inductive ClaimVal where
  | str (s : String)
  | other
  deriving DecidableEq

/-- The part of a successful SDK validation result that `validateIamToken`
projects: `groups`/`roles` are `none` when the claim is not an array. -/
structure SdkOkResult where
  userId : String
  email : Option String := none
  name : Option String := none
  avatar : Option String := none
  owner : String
  groups : Option (List ClaimVal) := none
  roles : Option (List ClaimVal) := none
  deriving DecidableEq

/-- The string entries of an optional claim array. -/
def claimStrings (vals : Option (List ClaimVal)) : List String :=
  (vals.getD []).filterMap (fun v =>
    match v with
    | .str s => some s
    | .other => none)

/-- The `orgIds` construction of `validateIamToken`: the string group
claims, with the owner pushed at the end when it is non-empty and not
already present. -/
def extractOrgIds (groups : Option (List ClaimVal)) (owner : String) :
    List String :=
  if owner ≠ "" ∧ ¬ (claimStrings groups).contains owner then
    claimStrings groups ++ [owner]
  else claimStrings groups

/-- The `ok: true` arm of `GatewayIamAuthResult`. -/
structure GatewayIamOk where
  userId : String
  email : Option String := none
  name : Option String := none
  owner : String
  orgIds : List String
  currentOrgId : Option String := none
  roles : List String
  deriving DecidableEq

/-- `validateIamToken`, success path: project the SDK result into the
gateway auth result (`currentOrgId = orgIds[0]`). -/
def validateIamToken (sdk : SdkOkResult) : GatewayIamOk :=
  let orgIds := extractOrgIds sdk.groups sdk.owner
  { userId := sdk.userId, email := sdk.email, name := sdk.name,
    owner := sdk.owner, orgIds := orgIds, currentOrgId := orgIds.head?,
    roles := claimStrings sdk.roles }

/-- The optional connect-parameter tenant request. -/
structure RequestedTenant where
  orgId : Option String := none
  projectId : Option String := none
  env : Option String := none
  deriving DecidableEq

/-- `resolveTenantContext`: orgId priority is explicit request, then
`currentOrgId`, then `orgIds[0]`; a missing or empty orgId yields `null`. -/
def resolveTenantContext (iamResult : GatewayIamOk)
    (requestedTenant : Option RequestedTenant) : Option TenantContext :=
  let orgId? := (requestedTenant.bind RequestedTenant.orgId) <|>
    iamResult.currentOrgId <|> iamResult.orgIds.head?
  match orgId? with
  | none => none
  | some orgId =>
    if orgId = "" then none
    else
      some { orgId := orgId,
             projectId := requestedTenant.bind RequestedTenant.projectId,
             userId := iamResult.userId,
             userName := iamResult.name <|> iamResult.email,
             env := requestedTenant.bind RequestedTenant.env }

theorem validateIamToken_orgIds_eq (sdk : SdkOkResult) :
    (validateIamToken sdk).orgIds = extractOrgIds sdk.groups sdk.owner := rfl

theorem validateIamToken_currentOrgId_eq (sdk : SdkOkResult) :
    (validateIamToken sdk).currentOrgId =
      (extractOrgIds sdk.groups sdk.owner).head? := rfl

theorem resolveTenant_identity_mem (r : GatewayIamOk) (tc : TenantContext)
    (hcur : r.currentOrgId = r.orgIds.head?)
    (htc : resolveTenantContext r none = some tc) :
    tc.orgId ∈ r.orgIds := by
  unfold resolveTenantContext at htc
  rw [hcur] at htc
  cases horg : r.orgIds with
  | nil =>
    rw [horg] at htc
    simp at htc
  | cons o t =>
    rw [horg] at htc
    simp only [Option.none_bind, List.head?, Option.none_orElse,
      Option.some_orElse] at htc
    by_cases ho : o = ""
    · rw [if_pos ho] at htc
      exact absurd htc (by simp)
    · rw [if_neg ho] at htc
      have heq := Option.some.inj htc
      rw [← heq]
      exact List.mem_cons_self o t

/-- Claim C10: for every successful identity validation, the extracted
`orgIds` contain the owner whenever the owner is non-empty; `currentOrgId`,
when defined, is the first element of `orgIds`; every entry of `orgIds` is a
string group claim or the owner; and a tenant resolved from the identity
alone satisfies `orgId ∈ orgIds`. -/
theorem validateIamToken_orgIds_sound (sdk : SdkOkResult) :
    (sdk.owner ≠ "" → sdk.owner ∈ (validateIamToken sdk).orgIds) ∧
    (∀ x : String, (validateIamToken sdk).currentOrgId = some x →
      (validateIamToken sdk).orgIds.head? = some x) ∧
    (∀ s : String, s ∈ (validateIamToken sdk).orgIds →
      s ∈ claimStrings sdk.groups ∨ s = sdk.owner) ∧
    (∀ tc : TenantContext,
      resolveTenantContext (validateIamToken sdk) none = some tc →
        tc.orgId ∈ (validateIamToken sdk).orgIds) := by
  refine ⟨?_, ?_, ?_, ?_⟩
  · intro howner
    rw [validateIamToken_orgIds_eq]
    unfold extractOrgIds
    by_cases hmem : sdk.owner ∈ claimStrings sdk.groups
    · rw [if_neg fun hc => hc.2 (by simpa using hmem)]
      exact hmem
    · rw [if_pos ⟨howner, by simpa using hmem⟩]
      simp
  · intro x hx
    rw [validateIamToken_currentOrgId_eq] at hx
    rw [validateIamToken_orgIds_eq]
    exact hx
  · intro s hs
    rw [validateIamToken_orgIds_eq] at hs
    unfold extractOrgIds at hs
    by_cases hpush : sdk.owner ≠ "" ∧
        ¬ (claimStrings sdk.groups).contains sdk.owner
    · rw [if_pos hpush] at hs
      rcases List.mem_append.mp hs with h | h
      · exact Or.inl h
      · exact Or.inr (by simpa using h)
    · rw [if_neg hpush] at hs
      exact Or.inl hs
  · intro tc htc
    exact resolveTenant_identity_mem (validateIamToken sdk) tc
      (by rw [validateIamToken_currentOrgId_eq, validateIamToken_orgIds_eq]) htc

/-- A concrete successful SDK validation result used by the C10 witness. -/
def sdk0 : SdkOkResult :=
  { userId := "u1", owner := "acme", groups := some [.str "g1", .other] }

/-- Witness for C10: concrete claims with groups `["g1"]` and owner
`"acme"`; the owner lands in `orgIds`, the head is `"g1"`, and the tenant
resolved from the identity alone uses that head. -/
theorem validateIamToken_orgIds_sound_witness :
    "acme" ∈ (validateIamToken sdk0).orgIds ∧
    (validateIamToken sdk0).orgIds.head? = some "g1" ∧
    ("g1" ∈ claimStrings sdk0.groups ∨ "g1" = sdk0.owner) ∧
    ({ orgId := "g1", userId := "u1" } : TenantContext).orgId ∈
      (validateIamToken sdk0).orgIds := by
  refine ⟨?_, ?_, ?_, ?_⟩
  · exact (validateIamToken_orgIds_sound sdk0).1 (by decide)
  · exact (validateIamToken_orgIds_sound sdk0).2.1 "g1" (by decide)
  · exact (validateIamToken_orgIds_sound sdk0).2.2.1 "g1" (by decide)
  · exact (validateIamToken_orgIds_sound sdk0).2.2.2
      { orgId := "g1", userId := "u1" } (by decide)

-- ---------------------------------------------------------------------------
-- Slug sanitation (src/config/tenant-paths.ts)
-- ---------------------------------------------------------------------------

/-- ASCII `[a-zA-Z0-9]`. -/
def isAsciiAlphanum (c : Char) : Bool :=
  (Char.ofNat 65 ≤ c && c ≤ Char.ofNat 90) ||
  (Char.ofNat 97 ≤ c && c ≤ Char.ofNat 122) ||
  (Char.ofNat 48 ≤ c && c ≤ Char.ofNat 57)

/-- A character of the regex tail class `[a-zA-Z0-9._-]`. -/
def isSafeSlugTailChar (c : Char) : Bool :=
  isAsciiAlphanum c || c == '.' || c == '_' || c == '-'

/-- `SAFE_SLUG_RE.test`: `^[a-zA-Z0-9][a-zA-Z0-9._-]{0,127}$`. -/
def matchesSafeSlug (cs : List Char) : Bool :=
  match cs with
  | [] => false
  | c :: rest =>
      isAsciiAlphanum c && decide (rest.length ≤ 127) &&
        rest.all isSafeSlugTailChar

/-- The characters `encodeURIComponent` leaves unescaped:
`[A-Za-z0-9-_.!~*'()]`. -/
def isUnescapedURIChar (c : Char) : Bool :=
  isAsciiAlphanum c || c == '-' || c == '_' || c == '.' || c == '!' ||
    c == '~' || c == '*' || c == Char.ofNat 39 || c == '(' || c == ')'

/-- Uppercase hex digit, as produced by `encodeURIComponent`. -/
def hexDigitChar (i : Fin 16) : Char :=
  if i.val < 10 then Char.ofNat (48 + i.val) else Char.ofNat (55 + i.val)

/-- UTF-8 bytes of a Unicode scalar value. -/
def utf8Bytes (n : Nat) : List Nat :=
  if n < 128 then [n]
  else if n < 2048 then [192 + n / 64, 128 + n % 64]
  else if n < 65536 then [224 + n / 4096, 128 + n / 64 % 64, 128 + n % 64]
  else [240 + n / 262144, 128 + n / 4096 % 64, 128 + n / 64 % 64, 128 + n % 64]

/-- `%XX` with uppercase hex digits. -/
def percentEncodeByte (b : Nat) : List Char :=
  ['%', hexDigitChar ⟨b / 16 % 16, Nat.mod_lt _ (by norm_num)⟩,
    hexDigitChar ⟨b % 16, Nat.mod_lt _ (by norm_num)⟩]

/-- `encodeURIComponent` on one character: kept verbatim when unescaped,
else percent-escaped byte by byte. -/
def encodeURIComponentChar (c : Char) : List Char :=
  if isUnescapedURIChar c then [c]
  else (utf8Bytes c.toNat).flatMap percentEncodeByte

/-- `encodeURIComponent` over a character list. -/
def encodeURIComponentChars (cs : List Char) : List Char :=
  cs.flatMap encodeURIComponentChar

/-- `.replace(/%/g, "_")`, one character at a time. -/
def replacePercent (c : Char) : Char := if c == '%' then '_' else c

/-- `sanitizeSlug` from `src/config/tenant-paths.ts`, on character lists. -/
def sanitizeSlugChars (cs : List Char) : List Char :=
  if matchesSafeSlug cs then cs
  else (encodeURIComponentChars cs).map replacePercent

/-- `sanitizeSlug` on strings. -/
def sanitizeSlug (s : String) : String :=
  String.mk (sanitizeSlugChars s.data)

theorem hexDigitChar_unescaped : ∀ i : Fin 16,
    isUnescapedURIChar (hexDigitChar i) = true := by decide

theorem encodeURIComponentChar_chars (x : Char) :
    ∀ c ∈ encodeURIComponentChar x, isUnescapedURIChar c = true ∨ c = '%' := by
  intro c hc
  unfold encodeURIComponentChar at hc
  by_cases hx : isUnescapedURIChar x
  · rw [if_pos hx] at hc
    rw [List.mem_singleton.mp hc]
    exact Or.inl hx
  · rw [if_neg hx] at hc
    rcases List.mem_flatMap.mp hc with ⟨b, _, hcb⟩
    unfold percentEncodeByte at hcb
    simp only [List.mem_cons, List.mem_singleton, List.not_mem_nil,
      or_false] at hcb
    rcases hcb with rfl | rfl | rfl
    · exact Or.inr rfl
    · exact Or.inl (hexDigitChar_unescaped _)
    · exact Or.inl (hexDigitChar_unescaped _)

theorem sanitized_output_chars (cs : List Char) :
    ∀ c ∈ (encodeURIComponentChars cs).map replacePercent,
      isUnescapedURIChar c = true ∧ c ≠ '%' := by
  intro c hc
  rcases List.mem_map.mp hc with ⟨d, hd, rfl⟩
  rcases List.mem_flatMap.mp hd with ⟨x, _, hdx⟩
  rcases encodeURIComponentChar_chars x d hdx with hun | rfl
  · have hdne : d ≠ '%' := by
      intro h
      rw [h] at hun
      exact absurd hun (by decide)
    unfold replacePercent
    rw [if_neg (by simpa using hdne)]
    exact ⟨hun, hdne⟩
  · unfold replacePercent
    exact ⟨by decide, by decide⟩

theorem encode_fixes_unescaped (cs : List Char)
    (h : ∀ c ∈ cs, isUnescapedURIChar c = true) :
    encodeURIComponentChars cs = cs := by
  induction cs with
  | nil => rfl
  | cons c rest ih =>
    have hc : encodeURIComponentChar c = [c] := by
      unfold encodeURIComponentChar
      rw [if_pos (h c (List.mem_cons_self c rest))]
    unfold encodeURIComponentChars
    rw [List.flatMap_cons, hc]
    have := ih (fun x hx => h x (List.mem_cons_of_mem c hx))
    unfold encodeURIComponentChars at this
    rw [this]
    rfl

theorem map_replace_fixes_nonpercent (cs : List Char)
    (h : ∀ c ∈ cs, c ≠ '%') :
    cs.map replacePercent = cs := by
  induction cs with
  | nil => rfl
  | cons c rest ih =>
    have hc : replacePercent c = c := by
      unfold replacePercent
      rw [if_neg (by simpa using h c (List.mem_cons_self c rest))]
    rw [List.map_cons, hc, ih (fun x hx => h x (List.mem_cons_of_mem c hx))]

theorem sanitizeSlugChars_idem (cs : List Char) :
    sanitizeSlugChars (sanitizeSlugChars cs) = sanitizeSlugChars cs := by
  by_cases h : matchesSafeSlug cs
  · simp [sanitizeSlugChars, h]
  · have h1 : sanitizeSlugChars cs = (encodeURIComponentChars cs).map replacePercent := by
      rw [sanitizeSlugChars, if_neg h]
    have hall := sanitized_output_chars cs
    rw [h1]
    by_cases h2 : matchesSafeSlug ((encodeURIComponentChars cs).map replacePercent)
    · rw [sanitizeSlugChars, if_pos h2]
    · rw [sanitizeSlugChars, if_neg h2]
      rw [encode_fixes_unescaped _ (fun c hc => (hall c hc).1)]
      exact map_replace_fixes_nonpercent _ (fun c hc => (hall c hc).2)

/-- Claim C8: slug sanitation is idempotent — `sanitizeSlug` returns its
argument unchanged when it matches `^[a-zA-Z0-9][a-zA-Z0-9._-]{0,127}$` and
otherwise percent-escapes it with `%` replaced by `_`, and applying it twice
equals applying it once. -/
theorem sanitizeSlug_idempotent (s : String) :
    sanitizeSlug (sanitizeSlug s) = sanitizeSlug s := by
  unfold sanitizeSlug
  rw [show (String.mk (sanitizeSlugChars s.data)).data =
      sanitizeSlugChars s.data from rfl]
  rw [sanitizeSlugChars_idem]
